import Mathlib

/-!
Verification development for the RTKkey integration
(custom_components/RTKkey).  The JSON data model, the response
normalizer (`_parse_devices`, `_parse_events`), the refresh cycle
(`_async_update_data`, `_fetch_devices`, `_fetch_events`), the
latest-event selection (`sensor.RTKkeyEventSensor._update_state`) and
the open-button eligibility test (`button._is_valid_intercom`) are
shallowly embedded below; Python exceptions are modelled with
`Except PyExc`, and calls into external libraries (the HTTP stack, the
host coordinator, `dt_util.parse_datetime`) are modelled as explicit
parameters or small models documented at their definitions.
-/

/-- JSON values as Python's `json` module materialises them: objects are
insertion-ordered association lists with (as produced by JSON parsing)
unique string keys.  Numbers are modelled as integers; no claim in this
development depends on float-valued JSON. -/
inductive Json where
  | null : Json
  | bool (b : Bool) : Json
  | num (n : Int) : Json
  | str (s : String) : Json
  | arr (l : List Json) : Json
  | obj (l : List (String × Json)) : Json

/-- First-match lookup in an object's key/value list (Python dict access;
keys are unique in dicts built by JSON parsing, so first-match agrees). -/
def lookupPairs : List (String × Json) → String → Option Json
  | [], _ => none
  | (k, v) :: r, key => if k = key then some v else lookupPairs r key

/-- Dict indexing `d[k]` / `k in d` for JSON objects; `none` on non-objects or missing keys. -/
def Json.lookup : Json → String → Option Json
  | .obj l, k => lookupPairs l k
  | _, _ => none

/-- Python `dict.get(k)`: the stored value, or `None` when missing.  (Python
cannot distinguish a stored `null` from a missing key through `.get`, and
neither does this model.)  Only ever applied to objects by the embedded
code; on non-objects it returns `null`. -/
def pyGet (j : Json) (k : String) : Json := (j.lookup k).getD .null

/-- Python truthiness of a JSON-decoded value. -/
def Json.truthy : Json → Bool
  | .null => false
  | .bool b => b
  | .num n => n != 0
  | .str s => s != ""
  | .arr l => !l.isEmpty
  | .obj l => !l.isEmpty

/-- Python `isinstance(x, dict)`. -/
def Json.isObj : Json → Bool
  | .obj _ => true
  | _ => false

/-- Python `str(x)` for the scalar values the code coerces (device ids).
Containers are never coerced by any claim; they get placeholder text. -/
def pyStr : Json → String
  | .null => "None"
  | .bool true => "True"
  | .bool false => "False"
  | .num n => toString n
  | .str s => s
  | .arr _ => "<list>"
  | .obj _ => "<dict>"

/-- Python `type(x)` name, used only in an error message. -/
def pyTypeName : Json → String
  | .null => "NoneType"
  | .bool _ => "bool"
  | .num _ => "int"
  | .str _ => "str"
  | .arr _ => "list"
  | .obj _ => "dict"

/-- A raised Python exception: its class and its message.  `UpdateFailed`
is the host's ordinary refresh-failure class; the host's distinct
re-authentication trigger (`ConfigEntryAuthFailed`) never appears in this
code base. -/
structure PyExc where
  cls : String
  msg : String

/-- Python `x == "s"` for a JSON value against a string literal (Python `==`
between a value and a `str` is `True` only for equal strings). -/
def isJStr (j : Json) (s : String) : Bool :=
  match j with
  | .str t => t = s
  | _ => false

/-- The test `device.get('device_type') in [DEVICE_TYPE_INTERCOM, DEVICE_TYPE_GATE]`
(const.py: `intercom` / `gate`). -/
def typeOk (d : Json) : Bool :=
  isJStr (pyGet d "device_type") "intercom" || isJStr (pyGet d "device_type") "gate"

/-- The shape probing of `coordinator._parse_devices` (lines 158-170):
`data["data"]["devices"]` when `data["data"]` is a dict holding a list,
else top-level `devices` as a list, else `data["data"]` itself a list;
an `if/elif` chain, so a dict-valued `data` without a `devices` list ends
the probing with no devices. -/
def locate_devices (data : Json) : List Json :=
  match data.lookup "data" with
  | some (.obj dl) =>
      match lookupPairs dl "devices" with
      | some (.arr ds) => ds
      | _ => []
  | _ =>
      match data.lookup "devices" with
      | some (.arr ds) => ds
      | _ =>
          match data.lookup "data" with
          | some (.arr ds) => ds
          | _ => []

/-- Embedding of `coordinator._parse_devices`: raises `UpdateFailed` when the response
is not a dict; otherwise locates the raw list and keeps the entries that
are dicts whose `device_type` is `intercom` or `gate`. -/
def parse_devices (data : Json) : Except PyExc (List Json) :=
  match data with
  | .obj _ => .ok ((locate_devices data).filter (fun d => d.isObj && typeOk d))
  | _ => .error ⟨"UpdateFailed", "Expected dictionary response, got " ++ pyTypeName data⟩

/-- The alternative-structures block of `coordinator._parse_events`
(lines 208-215): the `if "items" ... elif "events" ... elif "data"`
chain, each arm requiring presence as a list, the first hit taken even
when that list is empty. -/
def events_fallback (data : Json) : List Json :=
  match data.lookup "items" with
  | some (.arr l) => l
  | _ =>
      match data.lookup "events" with
      | some (.arr l) => l
      | _ =>
          match data.lookup "data" with
          | some (.arr l) => l
          | _ => []

/-- The first probe of `coordinator._parse_events` (lines 202-205):
the list under `data["data"]["items"]`, or `[]` when that path is not a
dict holding a list. -/
def events_first_probe (data : Json) : List Json :=
  match data.lookup "data" with
  | some (.obj dl) =>
      match lookupPairs dl "items" with
      | some (.arr l) => l
      | _ => []
  | _ => []

/-- The shape probing of `coordinator._parse_events` (lines 198-216):
`data["data"]["items"]` when present as a list; then — whenever that
left `events_list` empty (`if not events_list:`), including when it was
present as an empty list — the fallback chain above. -/
def events_locate (data : Json) : List Json :=
  if (events_first_probe data).isEmpty then events_fallback data
  else events_first_probe data

/-- The grouping key of one raw event (lines 221-225): present only for
dict entries with a truthy `device_id`, and then `str(device_id)`. -/
def eventKeyOf (e : Json) : Option String :=
  if e.isObj then
    let did := pyGet e "device_id"
    if did.truthy then some (pyStr did) else none
  else none

/-- Update `events_by_device[k].append(e)`, creating the key at the end of the
dict's insertion order when absent (lines 225-228). -/
def addEvent : List (String × List Json) → String → Json → List (String × List Json)
  | [], k, e => [(k, [e])]
  | (k', l) :: r, k, e =>
      if k' = k then (k', l ++ [e]) :: r else (k', l) :: addEvent r k e

/-- One iteration of the grouping loop (lines 221-229). -/
def group_step (m : List (String × List Json)) (e : Json) : List (String × List Json) :=
  match eventKeyOf e with
  | some k => addEvent m k e
  | none => m

/-- The grouping loop of `_parse_events` over the located raw list. -/
def group_events (evs : List Json) : List (String × List Json) :=
  evs.foldl group_step []

/-- The sort key computed by `coordinator._parse_event_time`:
`datetime.min` (a naive datetime) when `raised_at` is falsy, fails to
parse, or is not a string (the bare `except` swallows the library's
`TypeError`); otherwise the parsed instant re-tagged as UTC (an aware
datetime).  The external `dt_util.parse_datetime` is the parameter
`dtp`; aware instants are modelled as integers. -/
inductive SortKey where
  | naiveMin : SortKey
  | aware (t : Int) : SortKey

def parse_event_time (dtp : String → Option Int) (j : Json) : SortKey :=
  if j.truthy = false then .naiveMin
  else
    match j with
    | .str s =>
        match dtp s with
        | some t => .aware t
        | none => .naiveMin
    | _ => .naiveMin

def SortKey.isAware : SortKey → Bool
  | .aware _ => true
  | .naiveMin => false

/-- A group of events whose sort keys mix aware instants with
`datetime.min`.  CPython's `sorted` on such keys raises `TypeError`
("can't compare offset-naive and offset-aware datetimes"): any
comparison sort must order the naive keys against the aware ones, and
every such cross comparison raises. -/
def mixed_keys (dtp : String → Option Int) (evs : List Json) : Bool :=
  evs.any (fun e => (parse_event_time dtp (pyGet e "raised_at")).isAware) &&
  evs.any (fun e => !(parse_event_time dtp (pyGet e "raised_at")).isAware)

/-- The per-device debug-logging loop at the end of `_parse_events`
(lines 234-245): it only sorts each group to log its newest event, and
raises `TypeError` at the first group with mixed sort keys.  Its result
value is unused by the caller. -/
def logging_pass (dtp : String → Option Int) : List (String × List Json) → Except String Unit
  | [] => .ok ()
  | (_, evs) :: rest =>
      if mixed_keys dtp evs then .error "TypeError" else logging_pass dtp rest

/-- The `try` block of `_parse_events`: the grouping (which cannot raise:
it only does dict lookups, truthiness tests and `str`) runs to
completion before the logging pass, so an exception raised while logging
leaves the complete mapping in `events_by_device`.  The second component
records the exception the surrounding `except` swallows, if any. -/
def parse_events_run (dtp : String → Option Int) (data : Json) :
    List (String × List Json) × Option String :=
  match logging_pass dtp (group_events (events_locate data)) with
  | .ok _ => (group_events (events_locate data), none)
  | .error s => (group_events (events_locate data), some s)

/-- Embedding of `coordinator._parse_events`: `{}` for non-dict input; otherwise the
grouping of the located list — returned even when the internal logging
pass raised, since that exception is caught after `events_by_device` is
fully built. -/
def parse_events (dtp : String → Option Int) (data : Json) : List (String × List Json) :=
  if data.isObj then (parse_events_run dtp data).1 else []

/-- Model of the external `homeassistant.util.dt.parse_datetime`
restricted to the API's documented timestamp format
`%Y-%m-%dT%H:%M:%SZ`: on a well-formed stamp it returns an instant whose
integer encoding (the zero-padded digits read as one number) is
strictly monotone in chronological order, and `none` otherwise.  The
real parser accepts further formats; no theorem below depends on inputs
outside this one. -/
def dt_parse_model (s : String) : Option Int :=
  match s.toList with
  | [y1, y2, y3, y4, '-', m1, m2, '-', d1, d2, 'T', h1, h2, ':', n1, n2, ':', s1, s2, 'Z'] =>
      let ds := [y1, y2, y3, y4, m1, m2, d1, d2, h1, h2, n1, n2, s1, s2]
      if ds.all Char.isDigit then
        some (Int.ofNat (ds.foldl (fun a c => a * 10 + (c.toNat - 48)) 0))
      else none
  | _ => none

/-- Outcome of one HTTP call as the coordinator observes it: a 200
response with its JSON-decoded body, a non-200 status, a timeout
(`asyncio.TimeoutError`), or an `aiohttp.ClientError` (which also covers
a 200 response whose body fails JSON decoding: `ContentTypeError` is a
`ClientError`). -/
inductive HttpOutcome where
  | ok (body : Json) : HttpOutcome
  | status (n : Nat) : HttpOutcome
  | timeout : HttpOutcome
  | clientError (msg : String) : HttpOutcome

/-- Embedding of `coordinator._fetch_devices` (lines 68-82): a 200 body goes to
`_parse_devices`; 401 raises `UpdateFailed("Invalid authentication")`;
any other status raises `UpdateFailed("API error: <status>")`; timeouts
and client errors propagate as their own exception classes. -/
def fetch_devices (resp : HttpOutcome) : Except PyExc (List Json) :=
  match resp with
  | .ok body => parse_devices body
  | .status n =>
      if n = 401 then .error ⟨"UpdateFailed", "Invalid authentication"⟩
      else .error ⟨"UpdateFailed", "API error: " ++ toString n⟩
  | .timeout => .error ⟨"TimeoutError", "timed out"⟩
  | .clientError m => .error ⟨"ClientError", m⟩

/-- The id list built by `_fetch_events` (lines 91-95): `str(id)` of the
devices with a truthy `id` and an intercom/gate `device_type`. -/
def device_ids_for_events (devices : List Json) : List String :=
  devices.filterMap (fun d =>
    let did := pyGet d "id"
    if did.truthy && typeOk d then some (pyStr did) else none)

/-- Whether `_fetch_events` reaches its HTTP request at all: it returns
`{}` up front when the device list is empty (line 86) or when no valid
ids remain (line 97). -/
def event_request_made (devices : List Json) : Bool :=
  !devices.isEmpty && !(device_ids_for_events devices).isEmpty

/-- Embedding of `coordinator._fetch_events` (lines 84-146): an empty device or id
list short-circuits to `{}` with no request; a 200 response is parsed by
`_parse_events`; every other outcome — 400 (handled explicitly), other
statuses, timeout, and any exception — degrades to `{}`. -/
def fetch_events (dtp : String → Option Int) (devices : List Json)
    (resp : HttpOutcome) : List (String × List Json) :=
  if devices.isEmpty then []
  else if (device_ids_for_events devices).isEmpty then []
  else
    match resp with
    | .ok body => parse_events dtp body
    | _ => []

/-- The pair a successful refresh stores (coordinator lines 50-53). -/
structure Snapshot where
  devices : List Json
  events : List (String × List Json)

/-- Embedding of `coordinator._async_update_data` (lines 36-66): fetch devices, then
events for them, and return the result dict; an exception from the
device phase is re-raised as `UpdateFailed` — note that an `UpdateFailed`
raised inside `_fetch_devices` is itself an `Exception`, so the final
`except Exception` rewraps it as `UpdateFailed("Unexpected error: ...")`.
The two `HttpOutcome` parameters stand for the device-listing and
event-listing calls of this cycle. -/
def async_update_data (dtp : String → Option Int)
    (devResp evResp : HttpOutcome) : Except PyExc Snapshot :=
  match fetch_devices devResp with
  | .ok devices => .ok ⟨devices, fetch_events dtp devices evResp⟩
  | .error e =>
      if e.cls = "ClientError" then
        .error ⟨"UpdateFailed", "Error communicating with API: " ++ e.msg⟩
      else if e.cls = "TimeoutError" then
        .error ⟨"UpdateFailed", "Timeout communicating with API"⟩
      else
        .error ⟨"UpdateFailed", "Unexpected error: " ++ e.msg⟩

/-- Exception class of a failed refresh, `none` on success. -/
def errClass (r : Except PyExc Snapshot) : Option String :=
  match r with
  | .error e => some e.cls
  | .ok _ => none

/-- Model of the host `DataUpdateCoordinator` contract (an external
dependency): the visible snapshot is replaced only when
`_async_update_data` returns; when it raises, the previous snapshot
stays in place and the failure is surfaced. -/
def apply_refresh (prev : Option Snapshot) (dtp : String → Option Int)
    (devResp evResp : HttpOutcome) : Option Snapshot :=
  match async_update_data dtp devResp evResp with
  | .ok s => some s
  | .error _ => prev

/-- The most-recent-event loop of `sensor.RTKkeyEventSensor._update_state`
(lines 244-259): walk the device's events in order, skip non-dict
entries and entries whose `raised_at` does not parse, and keep the
current event exactly when its time is strictly greater than the best so
far.  `parseDT` abstracts `sensor._parse_datetime`, whose outputs are
UTC-normalised aware datetimes, modelled as integers; a `none` result is
an unparseable (or missing) timestamp. -/
def latest_loop (parseDT : Json → Option Int) :
    List Json → Option (Json × Int) → Option (Json × Int)
  | [], acc => acc
  | e :: rest, acc =>
      if e.isObj = false then latest_loop parseDT rest acc
      else
        match parseDT (pyGet e "raised_at") with
        | none => latest_loop parseDT rest acc
        | some t =>
            match acc with
            | none => latest_loop parseDT rest (some (e, t))
            | some (le, lt) =>
                if lt < t then latest_loop parseDT rest (some (e, t))
                else latest_loop parseDT rest (some (le, lt))

/-- The event `_update_state` selects for display (`latest_event` in the
spec's vocabulary); `none` renders the "never opened" state. -/
def latest_event (parseDT : Json → Option Int) (events : List Json) : Option Json :=
  (latest_loop parseDT events none).map Prod.fst

/-- The events that take part in the selection, paired with their parsed
times, in input order. -/
def entriesOf (parseDT : Json → Option Int) (events : List Json) : List (Json × Int) :=
  events.filterMap (fun e =>
    if e.isObj then (parseDT (pyGet e "raised_at")).map (fun t => (e, t)) else none)

/-- The `button.py` / `sensor.py` display-name chain (button lines 95-97,
sensor line 80): `description`, else `name_by_user`, else
`name_by_company` — Python `or`, so falsy values fall through — else
`f'Домофон {id}'`.  The fallback uses the intercom label for every
device type. -/
def display_name (device : Json) : Json :=
  let d := pyGet device "description"
  if d.truthy then d
  else
    let u := pyGet device "name_by_user"
    if u.truthy then u
    else
      let c := pyGet device "name_by_company"
      if c.truthy then c
      else .str ("Домофон " ++ pyStr (pyGet device "id"))

/-- Embedding of `_get_device_model_name` (button lines 124-132, identical in
sensor.py): the human label of a device type — `Домофон` for intercoms,
`Ворота` for gates. -/
def device_model_name (device : Json) : Json :=
  let t := pyGet device "device_type"
  if isJStr t "intercom" then .str "Домофон"
  else if isJStr t "gate" then .str "Ворота"
  else if t.truthy then t else .str "Устройство"

/-- Python `x is True`: identity with the `True` singleton, so only a
JSON `true` qualifies (`1 is True` is `False`). -/
def isTrueJ (j : Json) : Bool :=
  match j with
  | .bool true => true
  | _ => false

/-- The capability test inside `button._is_valid_intercom`'s loop:
`capability.get('name') == 'open_door' and capability.get('setup') is
True`.  (`setup` is the raw JSON field the spec's canonical model calls
`enabled`.) -/
def capMatch (c : Json) : Bool :=
  isJStr (pyGet c "name") "open_door" && isTrueJ (pyGet c "setup")

/-- The `for capability in capabilities` loop (button lines 30-33): a
non-dict element raises `AttributeError` at `capability.get` — unless an
earlier element already matched and returned `True`. -/
def capsLoop : List Json → Except PyExc Bool
  | [] => .ok false
  | c :: rest =>
      match c with
      | .obj l => if capMatch (.obj l) then .ok true else capsLoop rest
      | _ => .error ⟨"AttributeError", "no attribute get"⟩

/-- Embedding of `button._is_valid_intercom` (lines 22-33): reject non-intercom/gate
types first; then iterate `device.get('capabilities', [])`.  Iterating a
non-list mirrors Python: an empty dict or string iterates zero times
(returning `False`), a non-empty dict or string yields strings whose
`.get` raises `AttributeError`, and a non-iterable raises `TypeError`. -/
def is_valid_intercom (device : Json) : Except PyExc Bool :=
  if typeOk device = false then .ok false
  else
    match device.lookup "capabilities" with
    | none => capsLoop []
    | some (.arr l) => capsLoop l
    | some (.obj []) => .ok false
    | some (.str "") => .ok false
    | some (.obj (_ :: _)) => .error ⟨"AttributeError", "no attribute get"⟩
    | some (.str _) => .error ⟨"AttributeError", "no attribute get"⟩
    | some _ => .error ⟨"TypeError", "not iterable"⟩

/-- The capability list `_is_valid_intercom` iterates when it is
well-formed (`.get('capabilities', [])` with a list or missing value). -/
def capsList (device : Json) : List Json :=
  match device.lookup "capabilities" with
  | some (.arr l) => l
  | _ => []

/-- Well-formedness of a device's `capabilities` for the eligibility
test: absent, or a list of dicts (the shape the backend documents). -/
def capsOk (device : Json) : Bool :=
  match device.lookup "capabilities" with
  | none => true
  | some (.arr l) => l.all Json.isObj
  | some _ => false

/-- First-match lookup in the grouped mapping (Python dict indexing). -/
def lookupGroup : List (String × List Json) → String → Option (List Json)
  | [], _ => none
  | (k, l) :: r, key => if k = key then some l else lookupGroup r key

/-- The keys of the grouped mapping, in insertion order. -/
def keysOf (m : List (String × List Json)) : List String :=
  m.map Prod.fst

/-- The located entries that contribute to key `k`: dict entries with a
truthy `device_id` coercing to `k`, in their original order. -/
def relevant (evs : List Json) (k : String) : List Json :=
  evs.filter (fun e => eventKeyOf e == some k)

/-- Merge of an accumulator's entry for a key with the entries still to
be grouped under it. -/
def combine : Option (List Json) → List Json → Option (List Json)
  | none, [] => none
  | none, l => some l
  | some l0, l => some (l0 ++ l)

/-- The raw list `_parse_events` locates (nothing for non-dict input). -/
def events_source (data : Json) : List Json :=
  if data.isObj then events_locate data else []

theorem lookupGroup_addEvent (m : List (String × List Json)) (k : String) (e : Json)
    (key : String) :
    lookupGroup (addEvent m k e) key =
      if k = key then some ((lookupGroup m key).getD [] ++ [e]) else lookupGroup m key := by
  induction m with
  | nil =>
      by_cases h : k = key
      · simp [addEvent, lookupGroup, h]
      · simp [addEvent, lookupGroup, h]
  | cons p r ih =>
      obtain ⟨k', l⟩ := p
      by_cases h1 : k' = k
      · subst h1
        by_cases h2 : k' = key
        · subst h2
          simp [addEvent, lookupGroup]
        · simp [addEvent, lookupGroup, h2]
      · by_cases h2 : k' = key
        · subst h2
          have hk : ¬ k = k' := fun h => h1 h.symm
          simp [addEvent, lookupGroup, h1, hk]
        · simp [addEvent, lookupGroup, h1, h2, ih]

theorem relevant_cons (e : Json) (evs : List Json) (k : String) :
    relevant (e :: evs) k =
      if eventKeyOf e = some k then e :: relevant evs k else relevant evs k := by
  by_cases h : eventKeyOf e = some k
  · simp [relevant, List.filter_cons, h]
  · simp [relevant, List.filter_cons, h]

theorem combine_nil (o : Option (List Json)) : combine o [] = o := by
  cases o with
  | none => rfl
  | some l => simp [combine]

theorem lookupGroup_foldl (evs : List Json) (acc : List (String × List Json))
    (key : String) :
    lookupGroup (evs.foldl group_step acc) key =
      combine (lookupGroup acc key) (relevant evs key) := by
  induction evs generalizing acc with
  | nil => simp [relevant, combine_nil]
  | cons e rest ih =>
      rw [List.foldl_cons, ih, relevant_cons]
      cases hk : eventKeyOf e with
      | none =>
          have hne : ¬ eventKeyOf e = some key := by simp [hk]
          simp [group_step, hk, hne]
      | some k =>
          by_cases h : k = key
          · rw [if_pos (show some k = some key by rw [h])]
            simp only [group_step, hk]
            rw [lookupGroup_addEvent, if_pos h]
            cases h0 : lookupGroup acc key with
            | none => simp [combine, h0]
            | some l0 => simp [combine, h0]
          · rw [if_neg (show ¬ some k = some key by simp [h])]
            simp only [group_step, hk]
            rw [lookupGroup_addEvent, if_neg h]

/-- Lookup characterisation of the grouping loop: the value stored under
a key is exactly the ordered sublist of located entries coercing to it. -/
theorem lookupGroup_group_events (evs : List Json) (key : String) :
    lookupGroup (group_events evs) key =
      if (relevant evs key).isEmpty then none else some (relevant evs key) := by
  rw [group_events, lookupGroup_foldl]
  cases h : relevant evs key with
  | nil => simp [lookupGroup, combine]
  | cons a r => simp [lookupGroup, combine]

theorem lookupGroup_eq_none_iff (m : List (String × List Json)) (key : String) :
    lookupGroup m key = none ↔ key ∉ keysOf m := by
  induction m with
  | nil => simp [lookupGroup, keysOf]
  | cons p r ih =>
      obtain ⟨k, l⟩ := p
      by_cases h : k = key
      · subst h
        simp [lookupGroup, keysOf]
      · have h' : ¬ key = k := fun hh => h hh.symm
        simp [lookupGroup, keysOf, h, h', ih]

theorem keysOf_cons (k : String) (l : List Json) (r : List (String × List Json)) :
    keysOf ((k, l) :: r) = k :: keysOf r := rfl

theorem keysOf_addEvent (m : List (String × List Json)) (k : String) (e : Json) :
    keysOf (addEvent m k e) = if k ∈ keysOf m then keysOf m else keysOf m ++ [k] := by
  induction m with
  | nil => simp [addEvent, keysOf]
  | cons p r ih =>
      obtain ⟨k', l⟩ := p
      by_cases h : k' = k
      · subst h
        simp [addEvent, keysOf_cons]
      · have h' : ¬ k = k' := fun hh => h hh.symm
        by_cases hm : k ∈ keysOf r
        · simp [addEvent, h, keysOf_cons, ih, hm, h']
        · simp [addEvent, h, keysOf_cons, ih, hm, h']

theorem nodup_keys_addEvent (m : List (String × List Json)) (k : String) (e : Json)
    (h : (keysOf m).Nodup) : (keysOf (addEvent m k e)).Nodup := by
  rw [keysOf_addEvent]
  by_cases hm : k ∈ keysOf m
  · simpa [hm]
  · simpa [hm] using List.Nodup.append h (List.nodup_singleton k) (by simpa using hm)

theorem nodup_keys_foldl (evs : List Json) (acc : List (String × List Json))
    (h : (keysOf acc).Nodup) : (keysOf (evs.foldl group_step acc)).Nodup := by
  induction evs generalizing acc with
  | nil => simpa
  | cons e rest ih =>
      rw [List.foldl_cons]
      apply ih
      cases hk : eventKeyOf e with
      | none => simpa [group_step, hk]
      | some k =>
          simp only [group_step, hk]
          exact nodup_keys_addEvent acc k e h

/-- The grouped mapping never stores two entries under one key. -/
theorem nodup_keys_group_events (evs : List Json) :
    (keysOf (group_events evs)).Nodup :=
  nodup_keys_foldl evs [] (by simp [keysOf])

/-- Spec-side probe: a top-level key that is present with a list value
(the claim's "is present and is a list"). -/
def probe_key (data : Json) (k : String) : Option (List Json) :=
  match data.lookup k with
  | some (.arr l) => some l
  | _ => none

/-- Spec-side probe for the nested `data.items` shape. -/
def probe_data_items (data : Json) : Option (List Json) :=
  match data.lookup "data" with
  | some (.obj dl) =>
      match lookupPairs dl "items" with
      | some (.arr l) => some l
      | _ => none
  | _ => none

/-- Written from the amended claim: the first of `items`, `events`,
`data`-as-list that is present and is a list, taken even when empty. -/
def events_fallback_spec (data : Json) : List Json :=
  match probe_key data "items" with
  | some l => l
  | none =>
      match probe_key data "events" with
      | some l => l
      | none =>
          match probe_key data "data" with
          | some l => l
          | none => []

/-- Written from the amended claim: `data.items` is used only when it is
present, a list, and non-empty; otherwise the fallback chain decides. -/
def events_locate_amended (data : Json) : List Json :=
  match probe_data_items data with
  | some l => if l.isEmpty then events_fallback_spec data else l
  | none => events_fallback_spec data

theorem events_fallback_eq_spec (data : Json) :
    events_fallback data = events_fallback_spec data := by
  unfold events_fallback events_fallback_spec probe_key
  rcases data.lookup "items" with _ | j1 <;>
  rcases data.lookup "events" with _ | j2 <;>
  rcases data.lookup "data" with _ | j3 <;>
  (try cases j1) <;> (try cases j2) <;> (try cases j3) <;> rfl

theorem events_first_probe_eq (data : Json) :
    events_first_probe data = (probe_data_items data).getD [] := by
  unfold events_first_probe probe_data_items
  repeat' split
  all_goals simp_all

/-- The code's event-shape probing, characterised by the spec-side
probes. -/
theorem events_locate_eq_amended (data : Json) :
    events_locate data = events_locate_amended data := by
  unfold events_locate events_locate_amended
  rw [events_first_probe_eq, ← events_fallback_eq_spec]
  cases probe_data_items data with
  | none => rfl
  | some l => rfl

/-- The selection loop of `_update_state` rephrased over the
(event, parsed time) entries it actually considers: keep the strictly
greater time at each step. -/
def pickBest : Option (Json × Int) → List (Json × Int) → Option (Json × Int)
  | acc, [] => acc
  | none, p :: r => pickBest (some p) r
  | some b, p :: r => pickBest (some (if b.2 < p.2 then p else b)) r

/-- The earliest entry carrying the maximal time: later entries win only
when strictly greater. -/
def firstMax : List (Json × Int) → Option (Json × Int)
  | [] => none
  | p :: r =>
      match firstMax r with
      | none => some p
      | some q => if p.2 < q.2 then some q else some p

theorem latest_loop_eq_pickBest (parseDT : Json → Option Int) (events : List Json)
    (acc : Option (Json × Int)) :
    latest_loop parseDT events acc = pickBest acc (entriesOf parseDT events) := by
  induction events generalizing acc with
  | nil => cases acc <;> simp [latest_loop, entriesOf, pickBest]
  | cons e rest ih =>
      by_cases ho : e.isObj = true
      · cases hp : parseDT (pyGet e "raised_at") with
        | none => simp [latest_loop, ho, hp, entriesOf, List.filterMap_cons, ih]
        | some t =>
            cases acc with
            | none =>
                simp [latest_loop, ho, hp, entriesOf, List.filterMap_cons, ih, pickBest]
            | some b =>
                obtain ⟨le, lt⟩ := b
                by_cases hlt : lt < t
                · simp [latest_loop, ho, hp, entriesOf, List.filterMap_cons, ih, pickBest, hlt]
                · simp [latest_loop, ho, hp, entriesOf, List.filterMap_cons, ih, pickBest, hlt]
      · have ho' : e.isObj = false := by simpa using ho
        simp [latest_loop, ho', entriesOf, List.filterMap_cons, ih]

theorem pickBest_some_char (l : List (Json × Int)) (b : Json × Int) :
    pickBest (some b) l =
      some (match firstMax l with
            | none => b
            | some q => if b.2 < q.2 then q else b) := by
  induction l generalizing b with
  | nil => simp [pickBest, firstMax]
  | cons p r ih =>
      rw [pickBest, ih]
      cases hf : firstMax r with
      | none => simp [firstMax, hf]
      | some q =>
          simp only [firstMax, hf]
          by_cases h1 : b.2 < p.2
          · by_cases h2 : p.2 < q.2
            · have h3 : b.2 < q.2 := lt_trans h1 h2
              simp [h1, h2, h3]
            · simp [h1, h2]
          · by_cases h2 : p.2 < q.2
            · simp [h1, h2]
            · have h3 : ¬ b.2 < q.2 := by omega
              simp [h1, h2, h3]

theorem pickBest_none_eq_firstMax (l : List (Json × Int)) :
    pickBest none l = firstMax l := by
  cases l with
  | nil => rfl
  | cons p r =>
      rw [pickBest, pickBest_some_char]
      cases hf : firstMax r with
      | none => simp [firstMax, hf]
      | some q =>
          simp only [firstMax, hf]
          by_cases h : p.2 < q.2 <;> simp [h]

/-- Lemma: `firstMax` splits its input around the selected entry: everything
before it is strictly earlier-timed, everything after is no later. -/
theorem firstMax_split (l : List (Json × Int)) :
    (firstMax l = none ↔ l = []) ∧
    (∀ p, firstMax l = some p →
      ∃ l1 l2, l = l1 ++ p :: l2 ∧ (∀ q ∈ l1, q.2 < p.2) ∧ (∀ q ∈ l2, q.2 ≤ p.2)) := by
  induction l with
  | nil => simp [firstMax]
  | cons a r ih =>
      constructor
      · constructor
        · intro h
          cases hf : firstMax r with
          | none => simp [firstMax, hf] at h
          | some q =>
              simp only [firstMax, hf] at h
              split at h <;> simp_all
        · intro h
          exact absurd h (by simp)
      · intro p hp
        cases hf : firstMax r with
        | none =>
            simp only [firstMax, hf] at hp
            cases hp
            have hr : r = [] := (ih.1).mp hf
            subst hr
            exact ⟨[], [], by simp, by simp, by simp⟩
        | some q =>
            simp only [firstMax, hf] at hp
            obtain ⟨r1, r2, hsplit, hbefore, hafter⟩ := (ih.2) q hf
            by_cases hcmp : a.2 < q.2
            · rw [if_pos hcmp] at hp
              cases hp
              refine ⟨a :: r1, r2, by simp [hsplit], ?_, hafter⟩
              intro x hx
              rcases List.mem_cons.mp hx with h1 | h1
              · subst h1; exact hcmp
              · exact hbefore x h1
            · rw [if_neg hcmp] at hp
              cases hp
              refine ⟨[], r, by simp, by simp, ?_⟩
              intro x hx
              have hq : q.2 ≤ a.2 := by omega
              rw [hsplit] at hx
              rcases List.mem_append.mp hx with h1 | h1
              · exact le_of_lt (lt_of_lt_of_le (hbefore x h1) hq)
              · rcases List.mem_cons.mp h1 with h2 | h2
                · subst h2; exact hq
                · exact le_trans (hafter x h2) hq

/-- The `try` block always hands the complete grouping back, whether or
not the logging pass raised. -/
theorem parse_events_run_fst (dtp : String → Option Int) (data : Json) :
    (parse_events_run dtp data).1 = group_events (events_locate data) := by
  unfold parse_events_run
  cases logging_pass dtp (group_events (events_locate data)) <;> rfl

theorem isJStr_iff (j : Json) (s : String) : isJStr j s = true ↔ j = Json.str s := by
  cases j <;> simp [isJStr]

theorem isTrueJ_iff (j : Json) : isTrueJ j = true ↔ j = Json.bool true := by
  cases j with
  | bool b => cases b <;> simp [isTrueJ]
  | null => simp [isTrueJ]
  | num n => simp [isTrueJ]
  | str s => simp [isTrueJ]
  | arr l => simp [isTrueJ]
  | obj l => simp [isTrueJ]

theorem capMatch_iff (c : Json) :
    capMatch c = true ↔
      (pyGet c "name" = Json.str "open_door" ∧ pyGet c "setup" = Json.bool true) := by
  unfold capMatch
  rw [Bool.and_eq_true, isJStr_iff, isTrueJ_iff]

theorem capsLoop_all_obj (l : List Json) (h : ∀ c ∈ l, c.isObj = true) :
    capsLoop l = Except.ok (l.any capMatch) := by
  induction l with
  | nil => rfl
  | cons c rest ih =>
      have hc : c.isObj = true := h c (by simp)
      cases c with
      | obj cl =>
          by_cases hm : capMatch (Json.obj cl) = true
          · simp [capsLoop, hm, List.any_cons]
          · have hm' : capMatch (Json.obj cl) = false := by simpa using hm
            have hrest := ih (fun x hx => h x (by simp [hx]))
            simp [capsLoop, hm', List.any_cons, hrest]
      | null => simp [Json.isObj] at hc
      | bool b => simp [Json.isObj] at hc
      | num n => simp [Json.isObj] at hc
      | str s => simp [Json.isObj] at hc
      | arr a => simp [Json.isObj] at hc

theorem mem_relevant (evs : List Json) (k : String) (e : Json) (h : e ∈ relevant evs k) :
    e.isObj = true ∧ (pyGet e "device_id").truthy = true := by
  have h2 : eventKeyOf e = some k := by
    have hh := (List.mem_filter.mp h).2
    simpa using hh
  constructor
  · by_cases ho : e.isObj = true
    · exact ho
    · simp [eventKeyOf, ho] at h2
  · by_cases ht : (pyGet e "device_id").truthy = true
    · exact ht
    · simp [eventKeyOf, ht] at h2

/-- Device-phase body whose top-level shape matches no recognised form. -/
def unrecognizedBody : Json := Json.obj [("foo", Json.num 1)]

/-- Device-phase body with one intercom and one gate, both with ids. -/
def twoDeviceBody : Json :=
  Json.obj [("devices", Json.arr
    [Json.obj [("id", Json.str "1"), ("device_type", Json.str "intercom")],
     Json.obj [("id", Json.str "2"), ("device_type", Json.str "gate")]])]

/-- An intercom entry carrying no `id` at all. -/
def noIdDevice : Json := Json.obj [("device_type", Json.str "intercom")]

/-- Device-phase body whose only device lacks an id. -/
def noIdDeviceBody : Json := Json.obj [("devices", Json.arr [noIdDevice])]

/-- C1: for every refresh cycle in which the device-listing HTTP call
returns status 401, the refresh fails and the previously visible
snapshot is left unchanged — but, contrary to the claim, the failure is
raised as the same `UpdateFailed` class used for every other transport
failure (here compared against a 500 response), not as a distinct
auth-failure kind, so nothing propagates up to prompt credential
re-entry and the reauth flow in `config_flow.py` is never triggered. -/
theorem C1_unauthorized_same_class_as_server_error :
    ∀ (prev : Option Snapshot) (dtp : String → Option Int) (evResp : HttpOutcome),
      errClass (async_update_data dtp (HttpOutcome.status 401) evResp) = some "UpdateFailed" ∧
      errClass (async_update_data dtp (HttpOutcome.status 500) evResp) = some "UpdateFailed" ∧
      apply_refresh prev dtp (HttpOutcome.status 401) evResp = prev := by
  intro prev dtp evResp
  exact ⟨rfl, rfl, rfl⟩

/-- C2 counterexample: `{"foo": 1}` is a JSON object matching none of
the recognised shapes, yet `_parse_devices` returns an empty device list
instead of a parse failure, and the whole refresh succeeds with an empty
snapshot. -/
theorem C2_counterexample :
    parse_devices unrecognizedBody = Except.ok [] ∧
    async_update_data dt_parse_model (HttpOutcome.ok unrecognizedBody) (HttpOutcome.status 400)
      = Except.ok ⟨[], []⟩ :=
  ⟨rfl, rfl⟩

/-- C2 (amended): only a device-phase body that is not a JSON object is
rejected as a parse failure (an `UpdateFailed`); every JSON object —
including one matching none of the recognised shapes — parses
successfully, yielding a (possibly empty) device list rather than
aborting the refresh. -/
theorem C2_parse_failure_only_for_non_objects :
    ∀ data : Json,
      (data.isObj = false → ∃ e, parse_devices data = Except.error e ∧ e.cls = "UpdateFailed") ∧
      (data.isObj = true → ∃ ds, parse_devices data = Except.ok ds) := by
  intro data
  cases data
  case obj l =>
    exact ⟨fun h => by simp [Json.isObj] at h, fun _ => ⟨_, rfl⟩⟩
  all_goals exact ⟨fun _ => ⟨_, rfl, rfl⟩, fun h => by simp [Json.isObj] at h⟩

/-- C2 witness: a JSON string at the top level is rejected with an
`UpdateFailed`. -/
theorem C2_witness :
    ∃ e, parse_devices (Json.str "nope") = Except.error e ∧ e.cls = "UpdateFailed" :=
  (C2_parse_failure_only_for_non_objects (Json.str "nope")).1 rfl

/-- C3: whenever the device fetch and parse succeed, the refresh
succeeds with exactly those devices; any event-phase outcome other than
a decoded 200 body leaves the event map empty; and an empty device list
yields an empty snapshot with no event request made. -/
theorem C3_events_best_effort (body : Json) (ds : List Json) (evResp : HttpOutcome)
    (dtp : String → Option Int)
    (h : fetch_devices (HttpOutcome.ok body) = Except.ok ds) :
    async_update_data dtp (HttpOutcome.ok body) evResp
        = Except.ok ⟨ds, fetch_events dtp ds evResp⟩ ∧
    ((∀ b, evResp ≠ HttpOutcome.ok b) → fetch_events dtp ds evResp = []) ∧
    (ds = [] → fetch_events dtp ds evResp = [] ∧ event_request_made ds = false) := by
  refine ⟨?_, ?_, ?_⟩
  · unfold async_update_data
    rw [h]
  · intro hne
    cases evResp with
    | ok b => exact absurd rfl (hne b)
    | status n =>
        unfold fetch_events
        split
        · rfl
        · split
          · rfl
          · rfl
    | timeout =>
        unfold fetch_events
        split
        · rfl
        · split
          · rfl
          · rfl
    | clientError m =>
        unfold fetch_events
        split
        · rfl
        · split
          · rfl
          · rfl
  · intro he
    subst he
    exact ⟨rfl, rfl⟩

/-- C3 witness: the spec scenario — two devices fetched, events come
back HTTP 400 — succeeds with both devices and an empty event map. -/
theorem C3_witness :
    async_update_data dt_parse_model (HttpOutcome.ok twoDeviceBody) (HttpOutcome.status 400)
      = Except.ok ⟨[Json.obj [("id", Json.str "1"), ("device_type", Json.str "intercom")],
                    Json.obj [("id", Json.str "2"), ("device_type", Json.str "gate")]], []⟩ := by
  have h := C3_events_best_effort twoDeviceBody
    [Json.obj [("id", Json.str "1"), ("device_type", Json.str "intercom")],
     Json.obj [("id", Json.str "2"), ("device_type", Json.str "gate")]]
    (HttpOutcome.status 400) dt_parse_model rfl
  have he := h.2.1 (fun b hb => HttpOutcome.noConfusion hb)
  rw [h.1, he]

/-- C4: the selection loop returns nothing exactly when no event
contributes a parsed timestamp, and otherwise returns the event at a
position of the entry list before which every parsed time is strictly
smaller and after which every parsed time is no larger — i.e. the
earliest event attaining the maximal parsed `raised_at`, compared on the
UTC-normalised values the abstracted `_parse_datetime` produces. -/
theorem C4_latest_event_earliest_max (parseDT : Json → Option Int) (events : List Json) :
    (latest_event parseDT events = none ↔ entriesOf parseDT events = []) ∧
    (∀ e, latest_event parseDT events = some e →
       ∃ t l1 l2, entriesOf parseDT events = l1 ++ (e, t) :: l2 ∧
         (∀ q ∈ l1, q.2 < t) ∧ (∀ q ∈ l2, q.2 ≤ t)) := by
  have hb : latest_event parseDT events
      = (firstMax (entriesOf parseDT events)).map Prod.fst := by
    unfold latest_event
    rw [latest_loop_eq_pickBest, pickBest_none_eq_firstMax]
  constructor
  · constructor
    · intro h
      rw [hb] at h
      have hfm : firstMax (entriesOf parseDT events) = none := by
        cases hf : firstMax (entriesOf parseDT events) with
        | none => rfl
        | some p => rw [hf] at h; exact absurd h (by simp)
      exact ((firstMax_split (entriesOf parseDT events)).1).mp hfm
    · intro h
      rw [hb, h]
      rfl
  · intro e he
    rw [hb] at he
    cases hf : firstMax (entriesOf parseDT events) with
    | none => rw [hf] at he; exact absurd he (by simp)
    | some p =>
        obtain ⟨pe, pt⟩ := p
        rw [hf] at he
        have hpe : pe = e := by simpa using he
        subst hpe
        obtain ⟨l1, l2, hsplit, hb1, hb2⟩ :=
          (firstMax_split (entriesOf parseDT events)).2 (pe, pt) hf
        exact ⟨pt, l1, l2, hsplit, hb1, hb2⟩

/-- C4 witness: over the empty sequence the selection returns nothing. -/
theorem C4_witness :
    latest_event (fun j => match j with | Json.str s => dt_parse_model s | _ => none) [] = none :=
  ((C4_latest_event_earliest_max
      (fun j => match j with | Json.str s => dt_parse_model s | _ => none) []).1).mpr rfl

/-- C5 counterexample: a dict entry of type `intercom` but with no `id`
field at all survives `_parse_devices` — the claim's "entries missing an
id are dropped during normalization" is false. -/
theorem C5_counterexample :
    parse_devices noIdDeviceBody = Except.ok [noIdDevice] ∧
    pyGet noIdDevice "id" = Json.null ∧
    (pyGet noIdDevice "id").truthy = false :=
  ⟨rfl, rfl, rfl⟩

/-- C5 (amended): every device in the canonical list is a dict whose
`device_type` is `intercom` or `gate` — non-dict entries and other types
are dropped — but entries missing an `id` are retained; nothing beyond
the dict-and-type filter is dropped. -/
theorem C5_device_invariant (data : Json) (ds : List Json)
    (h : parse_devices data = Except.ok ds) :
    (∀ d ∈ ds, d.isObj = true ∧ typeOk d = true) ∧
    (∀ d ∈ locate_devices data, d.isObj = true → typeOk d = true → d ∈ ds) := by
  cases data with
  | obj l =>
      have hds : ds = (locate_devices (Json.obj l)).filter (fun d => d.isObj && typeOk d) := by
        simpa [parse_devices] using h.symm
      subst hds
      constructor
      · intro d hd
        have hm := (List.mem_filter.mp hd).2
        rw [Bool.and_eq_true] at hm
        exact hm
      · intro d hd h1 h2
        exact List.mem_filter.mpr ⟨hd, by rw [h1, h2]; rfl⟩
  | null => simp [parse_devices] at h
  | bool b => simp [parse_devices] at h
  | num n => simp [parse_devices] at h
  | str s => simp [parse_devices] at h
  | arr a => simp [parse_devices] at h

/-- C5 witness: the id-less intercom the parser returns satisfies the
dict-and-type invariant. -/
theorem C5_witness : noIdDevice.isObj = true ∧ typeOk noIdDevice = true :=
  (C5_device_invariant noIdDeviceBody [noIdDevice] rfl).1 noIdDevice (by simp)

/-- An event whose `raised_at` parses (an aware sort key). -/
def mixedEventA : Json :=
  Json.obj [("device_id", Json.str "1"), ("raised_at", Json.str "2024-01-01T00:00:00Z")]

/-- An event with no `raised_at` (sort key `datetime.min`, naive). -/
def mixedEventB : Json := Json.obj [("device_id", Json.str "1")]

/-- Event-phase body grouping both events under one device, so the
logging sort compares a naive with an aware datetime and raises. -/
def mixedEventsBody : Json := Json.obj [("items", Json.arr [mixedEventA, mixedEventB])]

/-- C6 counterexample: this input triggers an internal error (the
logging pass raises `TypeError` on mixed naive/aware sort keys, recorded
in the second component and swallowed by the `except`), yet the returned
mapping is non-empty — not the empty mapping the claim promises for any
input triggering an internal parse error. -/
theorem C6_counterexample :
    parse_events_run dt_parse_model mixedEventsBody
      = ([("1", [mixedEventA, mixedEventB])], some "TypeError") ∧
    (parse_events dt_parse_model mixedEventsBody).isEmpty = false :=
  ⟨rfl, rfl⟩

/-- C6 (amended): `_parse_events` never raises — non-dict input and
input in which the shape probing finds no entries yield the empty
mapping, and the result never depends on the timestamp parser, because
the only raising step (the logging sort) runs after the grouping is
complete and its exception is caught, so it can neither abort the
refresh nor truncate the mapping (which an internal error leaves intact
and possibly non-empty). -/
theorem C6_parse_events_total (dtp : String → Option Int) (data : Json) :
    (data.isObj = false → parse_events dtp data = []) ∧
    (events_locate data = [] → parse_events dtp data = []) ∧
    (∀ dtp', parse_events dtp data = parse_events dtp' data) := by
  refine ⟨?_, ?_, ?_⟩
  · intro h
    simp [parse_events, h]
  · intro h
    simp [parse_events, parse_events_run_fst, h, group_events]
  · intro dtp'
    simp [parse_events, parse_events_run_fst]

/-- C6 witness: a non-dict event body yields the empty mapping. -/
theorem C6_witness : parse_events dt_parse_model (Json.num 3) = [] :=
  (C6_parse_events_total dt_parse_model (Json.num 3)).1 rfl

/-- Event body where `data.items` is present as an *empty* list while a
top-level `items` list holds an event. -/
def emptyNestedItemsBody : Json :=
  Json.obj [("data", Json.obj [("items", Json.arr [])]),
            ("items", Json.arr [Json.obj [("device_id", Json.str "1")]])]

/-- C7 counterexample: `data.items` is present and is a list (the first
probed shape), yet its entries are not the ones used — the code falls
through to the top-level `items` shape and returns a non-empty grouping
where the claim requires the (empty) `data.items` entries. -/
theorem C7_counterexample :
    probe_data_items emptyNestedItemsBody = some [] ∧
    events_locate emptyNestedItemsBody = [Json.obj [("device_id", Json.str "1")]] ∧
    parse_events dt_parse_model emptyNestedItemsBody
      = [("1", [Json.obj [("device_id", Json.str "1")]])] :=
  ⟨rfl, rfl, rfl⟩

/-- C7 (amended): `data.items` is probed first but used only when it is
present, a list, and non-empty; otherwise the first of `items`,
`events`, `data`-as-list that is present and is a list is taken (even
when empty), in that order; and every event stored by the grouping is a
dict whose `device_id` is truthy — entries missing (or falsy)
`device_id` are dropped. -/
theorem C7_probe_order (dtp : String → Option Int) (data : Json) :
    events_locate data = events_locate_amended data ∧
    (∀ k l, lookupGroup (parse_events dtp data) k = some l →
       ∀ e ∈ l, e.isObj = true ∧ (pyGet e "device_id").truthy = true) := by
  refine ⟨events_locate_eq_amended data, ?_⟩
  intro k l hl e he
  by_cases ho : data.isObj = true
  · rw [show parse_events dtp data = group_events (events_locate data) from by
      simp [parse_events, ho, parse_events_run_fst]] at hl
    rw [lookupGroup_group_events] at hl
    split at hl
    · exact absurd hl (by simp)
    · cases hl
      exact mem_relevant _ _ _ he
  · rw [show parse_events dtp data = [] from by simp [parse_events, ho]] at hl
    simp [lookupGroup] at hl

/-- C7 witness: at the counterexample input, the probe characterisation
holds and the stored event is a dict with a truthy `device_id`. -/
theorem C7_witness :
    events_locate emptyNestedItemsBody = events_locate_amended emptyNestedItemsBody ∧
    ((Json.obj [("device_id", Json.str "1")]).isObj = true ∧
      (pyGet (Json.obj [("device_id", Json.str "1")]) "device_id").truthy = true) :=
  ⟨(C7_probe_order dt_parse_model emptyNestedItemsBody).1,
   (C7_probe_order dt_parse_model emptyNestedItemsBody).2 "1"
     [Json.obj [("device_id", Json.str "1")]] rfl
     (Json.obj [("device_id", Json.str "1")]) (by simp)⟩

/-- A gate device with no name fields and id 42. -/
def gateNoNames : Json :=
  Json.obj [("id", Json.str "42"), ("device_type", Json.str "gate")]

/-- A device whose `description` is present but the empty string. -/
def emptyDescDevice : Json :=
  Json.obj [("description", Json.str ""), ("name_by_user", Json.str "User Name"),
            ("device_type", Json.str "intercom"), ("id", Json.str "7")]

/-- The spec's round-trip device: only `name_by_company` set. -/
def entranceDevice : Json :=
  Json.obj [("description", Json.null), ("name_by_user", Json.null),
            ("name_by_company", Json.str "Entrance"),
            ("device_type", Json.str "intercom"), ("id", Json.str "9")]

/-- The spec's round-trip device: all three names null, id 42. -/
def allNullDevice : Json :=
  Json.obj [("description", Json.null), ("name_by_user", Json.null),
            ("name_by_company", Json.null),
            ("device_type", Json.str "intercom"), ("id", Json.str "42")]

/-- C8 counterexample: a gate with all names absent gets the fallback
`Домофон 42`, although the gate's device-type label is `Ворота` — the
synthesized fallback does not use the label corresponding to the
device's type; and a present-but-empty `description` falls through to
`name_by_user`, so "description if present" also fails. -/
theorem C8_counterexample :
    display_name gateNoNames = Json.str "Домофон 42" ∧
    device_model_name gateNoNames = Json.str "Ворота" ∧
    ("Домофон 42" : String) ≠ "Ворота 42" ∧
    display_name emptyDescDevice = Json.str "User Name" :=
  ⟨rfl, rfl, by decide, rfl⟩

/-- C8 (amended): `displayName` is the first *truthy* value among
`description`, `name_by_user`, `name_by_company`, else the synthesized
fallback `"Домофон <id>"`, which uses the intercom label regardless of
the device's type. -/
theorem C8_display_name_priority (device : Json) :
    ((pyGet device "description").truthy = true →
        display_name device = pyGet device "description") ∧
    ((pyGet device "description").truthy = false →
      (pyGet device "name_by_user").truthy = true →
        display_name device = pyGet device "name_by_user") ∧
    ((pyGet device "description").truthy = false →
      (pyGet device "name_by_user").truthy = false →
      (pyGet device "name_by_company").truthy = true →
        display_name device = pyGet device "name_by_company") ∧
    ((pyGet device "description").truthy = false →
      (pyGet device "name_by_user").truthy = false →
      (pyGet device "name_by_company").truthy = false →
        display_name device = Json.str ("Домофон " ++ pyStr (pyGet device "id"))) :=
  ⟨fun h1 => by simp [display_name, h1],
   fun h1 h2 => by simp [display_name, h1, h2],
   fun h1 h2 h3 => by simp [display_name, h1, h2, h3],
   fun h1 h2 h3 => by simp [display_name, h1, h2, h3]⟩

/-- C8 witness: the spec's two round-trip instances — `Entrance` wins as
the company name, and the all-null device resolves to a fallback
containing "42". -/
theorem C8_witness :
    display_name entranceDevice = Json.str "Entrance" ∧
    display_name allNullDevice = Json.str "Домофон 42" ∧
    ∃ pre post : String, "Домофон 42" = pre ++ "42" ++ post :=
  ⟨((C8_display_name_priority entranceDevice).2.2.1 rfl rfl rfl).trans rfl,
   ((C8_display_name_priority allNullDevice).2.2.2 rfl rfl rfl).trans rfl,
   ⟨"Домофон ", "", rfl⟩⟩

/-- An intercom with an enabled `open_door` capability. -/
def openableDevice : Json :=
  Json.obj [("id", Json.str "5"), ("device_type", Json.str "intercom"),
    ("capabilities", Json.arr
      [Json.obj [("name", Json.str "open_door"), ("setup", Json.bool true)]])]

/-- C9: for a device whose `capabilities` field is absent or a list of
dicts, the eligibility test completes without raising, and the device is
actionable iff its type is intercom or gate and some capability is named
`open_door` with its enable flag (raw field `setup`, the spec's
`enabled`) identically `true`. -/
theorem C9_actionable_iff (device : Json) (h : capsOk device = true) :
    (∃ b, is_valid_intercom device = Except.ok b) ∧
    (is_valid_intercom device = Except.ok true ↔
      (typeOk device = true ∧ ∃ c ∈ capsList device,
        pyGet c "name" = Json.str "open_door" ∧ pyGet c "setup" = Json.bool true)) := by
  by_cases ht : typeOk device = true
  · have ht' : ¬ (typeOk device = false) := by simp [ht]
    cases hc : device.lookup "capabilities" with
    | none =>
        have hv : is_valid_intercom device = Except.ok false := by
          unfold is_valid_intercom
          rw [if_neg ht', hc]
          rfl
        have hcl : capsList device = [] := by
          unfold capsList
          rw [hc]
        refine ⟨⟨false, hv⟩, ?_⟩
        rw [hv, hcl]
        simp
    | some j =>
        cases j with
        | arr lcaps =>
            have hall : ∀ c ∈ lcaps, c.isObj = true := by
              have hh : capsOk device = true := h
              unfold capsOk at hh
              rw [hc] at hh
              intro c hcm
              exact List.all_eq_true.mp hh c hcm
            have hv : is_valid_intercom device = capsLoop lcaps := by
              unfold is_valid_intercom
              rw [if_neg ht', hc]
            have hcl : capsList device = lcaps := by
              unfold capsList
              rw [hc]
            rw [hv, capsLoop_all_obj lcaps hall, hcl]
            refine ⟨⟨_, rfl⟩, ?_⟩
            constructor
            · intro hok
              have hany : lcaps.any capMatch = true := by simpa using hok
              obtain ⟨c, hcm, hm⟩ := List.any_eq_true.mp hany
              exact ⟨ht, c, hcm, (capMatch_iff c).mp hm⟩
            · rintro ⟨-, c, hcm, hm⟩
              have hany : lcaps.any capMatch = true :=
                List.any_eq_true.mpr ⟨c, hcm, (capMatch_iff c).mpr hm⟩
              rw [hany]
        | null =>
            unfold capsOk at h
            rw [hc] at h
            simp at h
        | bool b =>
            unfold capsOk at h
            rw [hc] at h
            simp at h
        | num n =>
            unfold capsOk at h
            rw [hc] at h
            simp at h
        | str s =>
            unfold capsOk at h
            rw [hc] at h
            simp at h
        | obj ol =>
            unfold capsOk at h
            rw [hc] at h
            simp at h
  · have ht0 : typeOk device = false := by simpa using ht
    have hv : is_valid_intercom device = Except.ok false := by
      unfold is_valid_intercom
      rw [if_pos ht0]
    refine ⟨⟨false, hv⟩, ?_⟩
    rw [hv]
    simp [ht0]

/-- C9 witness: the intercom with an enabled `open_door` capability is
actionable. -/
theorem C9_witness : is_valid_intercom openableDevice = Except.ok true :=
  ((C9_actionable_iff openableDevice rfl).2).mpr
    ⟨rfl, Json.obj [("name", Json.str "open_door"), ("setup", Json.bool true)],
     show Json.obj [("name", Json.str "open_door"), ("setup", Json.bool true)] ∈
       [Json.obj [("name", Json.str "open_door"), ("setup", Json.bool true)]] from
         List.mem_singleton.mpr rfl,
     rfl, rfl⟩

/-- An event whose `device_id` is the (truthy) string "0". -/
def zeroIdStr : Json := Json.obj [("device_id", Json.str "0")]

/-- An event whose `device_id` is the integer 0 — falsy, but coercing to
the same string "0". -/
def zeroIdNum : Json := Json.obj [("device_id", Json.num 0)]

/-- Event body holding both zero-id events. -/
def zeroIdBody : Json := Json.obj [("items", Json.arr [zeroIdStr, zeroIdNum])]

/-- C10 counterexample: the integer-0 entry is a located object entry
whose coerced `device_id` equals the key "0", yet the value stored under
"0" omits it (it is dropped for falsiness before coercion), so the value
is not "exactly the subsequence of object entries whose coerced
device_id equals that key". -/
theorem C10_counterexample :
    parse_events dt_parse_model zeroIdBody = [("0", [zeroIdStr])] ∧
    zeroIdNum.isObj = true ∧
    pyStr (pyGet zeroIdNum "device_id") = "0" ∧
    zeroIdNum ∉ [zeroIdStr] := by
  refine ⟨rfl, rfl, rfl, ?_⟩
  intro hmem
  rw [List.mem_singleton] at hmem
  simp [zeroIdNum, zeroIdStr] at hmem

/-- C10 (amended): under every key the mapping stores exactly the
subsequence, in original order, of located object entries whose
`device_id` is truthy and coerces to that key (`none` when there are no
such entries), and the mapping's keys are pairwise distinct — so every
key originates from some located entry with a truthy `device_id`, and
every stored event's `device_id` coerces to its key, but falsy
`device_id` values are excluded even when their coercion matches. -/
theorem C10_grouping_char (dtp : String → Option Int) (data : Json) (k : String) :
    lookupGroup (parse_events dtp data) k =
      (if (relevant (events_source data) k).isEmpty then none
       else some (relevant (events_source data) k)) ∧
    (keysOf (parse_events dtp data)).Nodup := by
  constructor
  · by_cases ho : data.isObj = true
    · rw [show parse_events dtp data = group_events (events_locate data) from by
        simp [parse_events, ho, parse_events_run_fst]]
      rw [lookupGroup_group_events]
      unfold events_source
      rw [if_pos ho]
    · rw [show parse_events dtp data = [] from by simp [parse_events, ho]]
      unfold events_source
      rw [if_neg ho]
      simp [lookupGroup, relevant]
  · by_cases ho : data.isObj = true
    · rw [show parse_events dtp data = group_events (events_locate data) from by
        simp [parse_events, ho, parse_events_run_fst]]
      exact nodup_keys_group_events _
    · rw [show parse_events dtp data = [] from by simp [parse_events, ho]]
      simp [keysOf]
